import Mathlib

/-!
Verification of `src/scripts/unset_preload.c`.

The program is a shared-library shim whose constructor runs at load time and
executes a single call: `unsetenv("LD_PRELOAD")`, discarding its result.

Shallow embedding: the process environment is an association list from
variable names to values (the first binding for a name is the visible one,
matching lookup over `environ`).  `unsetenv` follows POSIX semantics: it
fails (returns -1, leaving the environment untouched) when the name is empty
or contains an '=' character, and otherwise removes every entry for the name
and returns 0.  The load-time constructor `unset_preload` applies this
primitive to the fixed literal "LD_PRELOAD" and ignores the status.
-/

/-- The process environment: a mapping from variable names to values,
represented as an association list. -/
abbrev Env := List (String × String)

/-- `getenv`: look up a variable in the environment; `none` means the
variable is not present. -/
def getenv (env : Env) (name : String) : Option String :=
  (env.find? (fun p => p.1 == name)).map Prod.snd

/-- POSIX `unsetenv`: if the name is empty or contains '=', fail with -1 and
leave the environment unchanged; otherwise remove every entry with that name
and return 0. -/
def unsetenv (name : String) (env : Env) : Int × Env :=
  if name == "" || name.data.contains '=' then
    (-1, env)
  else
    (0, env.filter (fun p => p.1 != name))

/-- The loader's preload-list activation variable (the variable whose value
lists the shared objects to force-load, per the usage line of the source:
`LD_PRELOAD="... unset_preload.so" cmd`). -/
def PRELOAD_VAR : String := "LD_PRELOAD"

/-- The fixed build-time literal passed to `unsetenv` in the constructor
(`unsetenv("LD_PRELOAD")`, line 24 of the source). -/
def targetName : String := "LD_PRELOAD"

/-- The load-time constructor `unset_preload`: calls
`unsetenv("LD_PRELOAD")` and discards the returned status.  Its only
observable effect is the new environment. -/
def unset_preload (env : Env) : Env :=
  (unsetenv "LD_PRELOAD" env).2

/-- Spawning a child copies the parent's environment point-in-time
(copy-on-fork). -/
def spawnChildEnv (env : Env) : Env := env

/-- Reflexive-transitive reachability under a step relation on process
states (environments). -/
inductive Reach (Step : Env → Env → Prop) : Env → Env → Prop
  | refl (s : Env) : Reach Step s s
  | tail {s t u : Env} : Reach Step s t → Step t u → Reach Step s u

/- ### Basic lemmas about the embedding -/

lemma unsetenv_target_eq :
    ∀ env : Env, unsetenv "LD_PRELOAD" env =
      (0, env.filter (fun p => p.1 != "LD_PRELOAD")) := by
  intro env
  rfl

lemma find?_filter_self (env : Env) :
    List.find? (fun p => p.1 == "LD_PRELOAD")
      (env.filter (fun p => p.1 != "LD_PRELOAD")) = none := by
  induction env with
  | nil => rfl
  | cons p rest ih =>
    by_cases hp : p.1 = "LD_PRELOAD"
    · have h1 : (p.1 != "LD_PRELOAD") = false := by simp [hp]
      simp only [List.filter_cons, h1, if_false, Bool.false_eq_true]
      exact ih
    · have h1 : (p.1 != "LD_PRELOAD") = true := by simp [hp]
      have h2 : (p.1 == "LD_PRELOAD") = false := by simpa using hp
      simp only [List.filter_cons, h1, if_true, List.find?_cons, h2]
      exact ih

lemma find?_filter_ne (env : Env) (name : String)
    (hn : name ≠ "LD_PRELOAD") :
    List.find? (fun p => p.1 == name)
        (env.filter (fun p => p.1 != "LD_PRELOAD")) =
      List.find? (fun p => p.1 == name) env := by
  induction env with
  | nil => rfl
  | cons p rest ih =>
    by_cases hp : p.1 = "LD_PRELOAD"
    · have h1 : (p.1 != "LD_PRELOAD") = false := by simp [hp]
      have h2 : (p.1 == name) = false := by
        simp only [beq_eq_false_iff_ne, ne_eq, hp]
        exact fun h => hn h.symm
      simp only [List.filter_cons, h1, if_false, Bool.false_eq_true,
        List.find?_cons, h2]
      exact ih
    · have h1 : (p.1 != "LD_PRELOAD") = true := by simp [hp]
      by_cases hpn : p.1 = name
      · have h2 : (p.1 == name) = true := by simp [hpn]
        simp only [List.filter_cons, h1, if_true, List.find?_cons, h2]
      · have h2 : (p.1 == name) = false := by simpa using hpn
        simp only [List.filter_cons, h1, if_true, List.find?_cons, h2]
        exact ih

lemma getenv_unset_preload (env : Env) (name : String) :
    getenv (unset_preload env) name =
      if name = "LD_PRELOAD" then none else getenv env name := by
  show getenv (unsetenv "LD_PRELOAD" env).2 name = _
  rw [unsetenv_target_eq]
  by_cases hn : name = "LD_PRELOAD"
  · subst hn
    rw [if_pos rfl]
    unfold getenv
    rw [find?_filter_self]
    rfl
  · rw [if_neg hn]
    unfold getenv
    rw [find?_filter_ne env name hn]

lemma filter_eq_self_of_getenv_none (env : Env)
    (h : getenv env "LD_PRELOAD" = none) :
    env.filter (fun p => p.1 != "LD_PRELOAD") = env := by
  rw [List.filter_eq_self]
  intro p hp
  have hfind : env.find? (fun q => q.1 == "LD_PRELOAD") = none := by
    cases hf : env.find? (fun q => q.1 == "LD_PRELOAD") with
    | none => rfl
    | some q =>
      unfold getenv at h
      rw [hf] at h
      simp at h
  have hne := List.find?_eq_none.mp hfind p hp
  simpa using hne

/- ### Claims -/

/-- C1 (effectiveness): for every process environment — in particular one
containing LD_PRELOAD with any non-empty value — after the load-time
initializer `unset_preload` runs, looking up LD_PRELOAD returns "not
present". -/
theorem c1_effectiveness (env : Env) :
    getenv (unset_preload env) "LD_PRELOAD" = none := by
  rw [getenv_unset_preload]
  simp

/-- C2 (non-inheritance): for every parent environment in which LD_PRELOAD
is set before the component loads, the point-in-time environment copy handed
to a child spawned after the initializer completes does not contain
LD_PRELOAD. -/
theorem c2_non_inheritance (env : Env)
    (h : (getenv env "LD_PRELOAD").isSome) :
    getenv (spawnChildEnv (unset_preload env)) "LD_PRELOAD" = none := by
  show getenv (unset_preload env) "LD_PRELOAD" = none
  rw [getenv_unset_preload]
  simp

theorem c2_non_inheritance_witness :
    ((getenv [("LD_PRELOAD", "/lib/a.so")] "LD_PRELOAD").isSome = true) ∧
      getenv (spawnChildEnv (unset_preload [("LD_PRELOAD", "/lib/a.so")]))
        "LD_PRELOAD" = none :=
  ⟨by decide, c2_non_inheritance [("LD_PRELOAD", "/lib/a.so")] (by decide)⟩

/-- C3 (non-interference / frame): for every environment and every variable
name other than LD_PRELOAD, the binding of that name (presence and value)
after the initializer runs equals its binding before. -/
theorem c3_frame (env : Env) (name : String) (h : name ≠ "LD_PRELOAD") :
    getenv (unset_preload env) name = getenv env name := by
  rw [getenv_unset_preload, if_neg h]

theorem c3_frame_witness :
    "OTHER" ≠ "LD_PRELOAD" ∧
      getenv (unset_preload [("LD_PRELOAD", "v"), ("OTHER", "x")]) "OTHER" =
        getenv [("LD_PRELOAD", "v"), ("OTHER", "x")] "OTHER" :=
  ⟨by decide, c3_frame [("LD_PRELOAD", "v"), ("OTHER", "x")] "OTHER" (by decide)⟩

/-- C4 (idempotence on absence): when LD_PRELOAD is already absent the
removal leaves the whole environment unchanged (and does not fail: the
status is 0); consequently running the initializer twice equals running it
once. -/
theorem c4_idempotence (env : Env) :
    (getenv env "LD_PRELOAD" = none →
        unset_preload env = env ∧ (unsetenv "LD_PRELOAD" env).1 = 0) ∧
      unset_preload (unset_preload env) = unset_preload env := by
  constructor
  · intro h
    constructor
    · show (unsetenv "LD_PRELOAD" env).2 = env
      rw [unsetenv_target_eq]
      exact filter_eq_self_of_getenv_none env h
    · rw [unsetenv_target_eq]
  · show (unsetenv "LD_PRELOAD" (unset_preload env)).2 = unset_preload env
    rw [unsetenv_target_eq]
    exact filter_eq_self_of_getenv_none (unset_preload env)
      (c1_effectiveness env)

theorem c4_idempotence_witness :
    (getenv [("OTHER", "x")] "LD_PRELOAD" = none →
        unset_preload [("OTHER", "x")] = [("OTHER", "x")] ∧
          (unsetenv "LD_PRELOAD" [("OTHER", "x")]).1 = 0) ∧
      unset_preload (unset_preload [("OTHER", "x")]) =
        unset_preload [("OTHER", "x")] :=
  c4_idempotence [("OTHER", "x")]

/-- C5 (concrete scenario): starting from
`{LD_PRELOAD: "/path/a.so /path/unset.so", OTHER: "x"}`, after the
initializer runs the in-process environment equals `{OTHER: "x"}`, and the
environment copied to a spawned child binds OTHER to "x" and has no binding
for LD_PRELOAD. -/
theorem c5_scenario :
    unset_preload
        [("LD_PRELOAD", "/path/a.so /path/unset.so"), ("OTHER", "x")] =
        [("OTHER", "x")] ∧
      getenv (spawnChildEnv (unset_preload
        [("LD_PRELOAD", "/path/a.so /path/unset.so"), ("OTHER", "x")]))
        "OTHER" = some "x" ∧
      getenv (spawnChildEnv (unset_preload
        [("LD_PRELOAD", "/path/a.so /path/unset.so"), ("OTHER", "x")]))
        "LD_PRELOAD" = none := by
  refine ⟨?_, ?_, ?_⟩ <;> decide

/-- C6 (self-referential fixed target): the removed name is the fixed
build-time literal "LD_PRELOAD", which is exactly the preload-list
activation variable itself; the operation takes no parameters and for every
environment it is the removal of that fixed target, independent of any
runtime input. -/
theorem c6_fixed_target :
    targetName = "LD_PRELOAD" ∧ targetName = PRELOAD_VAR ∧
      ∀ env : Env, unset_preload env = (unsetenv targetName env).2 :=
  ⟨rfl, rfl, fun _ => rfl⟩

/-- C7 (error opacity): the initializer surfaces no error — its result type
carries only the environment, discarding the primitive's status for every
environment — and whenever the underlying removal primitive fails (status
-1) the environment is left unchanged. -/
theorem c7_error_opacity (env : Env) (name : String)
    (hfail : (unsetenv name env).1 = -1) :
    (∀ e : Env, unset_preload e = (unsetenv "LD_PRELOAD" e).2) ∧
      (unsetenv name env).2 = env := by
  refine ⟨fun _ => rfl, ?_⟩
  unfold unsetenv at hfail ⊢
  by_cases hc : (name == "" || name.data.contains '=') = true
  · rw [if_pos hc]
  · rw [if_neg hc] at hfail
    simp at hfail

theorem c7_error_opacity_witness :
    (unsetenv "A=B" [("OTHER", "x")]).1 = -1 ∧
      ((∀ e : Env, unset_preload e = (unsetenv "LD_PRELOAD" e).2) ∧
        (unsetenv "A=B" [("OTHER", "x")]).2 = [("OTHER", "x")]) :=
  ⟨by decide, c7_error_opacity [("OTHER", "x")] "A=B" (by decide)⟩

/-- C8 (post-run absence invariant): if every in-process step after
initialization never re-adds LD_PRELOAD (steps preserve its absence), then
LD_PRELOAD is absent in every state reachable from the post-initializer
state; and the component itself, run again, performs no further mutation. -/
theorem c8_absence_invariant (Step : Env → Env → Prop)
    (hstep : ∀ s s' : Env, Step s s' →
      getenv s "LD_PRELOAD" = none → getenv s' "LD_PRELOAD" = none)
    (env₀ : Env) (s : Env) (hr : Reach Step (unset_preload env₀) s) :
    getenv s "LD_PRELOAD" = none ∧
      unset_preload (unset_preload env₀) = unset_preload env₀ := by
  constructor
  · induction hr with
    | refl => exact c1_effectiveness env₀
    | tail _ hstep' ih => exact hstep _ _ hstep' ih
  · show (unsetenv "LD_PRELOAD" (unset_preload env₀)).2 = unset_preload env₀
    rw [unsetenv_target_eq]
    exact filter_eq_self_of_getenv_none (unset_preload env₀)
      (c1_effectiveness env₀)

theorem c8_absence_invariant_witness :
    getenv (unset_preload [("LD_PRELOAD", "v")]) "LD_PRELOAD" = none ∧
      unset_preload (unset_preload [("LD_PRELOAD", "v")]) =
        unset_preload [("LD_PRELOAD", "v")] :=
  c8_absence_invariant (fun _ _ => False)
    (fun _ _ hf _ => hf.elim) [("LD_PRELOAD", "v")]
    (unset_preload [("LD_PRELOAD", "v")])
    (Reach.refl (unset_preload [("LD_PRELOAD", "v")]))

/-- C9 (implicit — the failure branch is unreachable): "LD_PRELOAD" is a
valid name (non-empty, no '='), so for every environment the call
`unsetenv("LD_PRELOAD")` succeeds with status 0; the invalid-name error case
can never occur for this call. -/
theorem c9_failure_unreachable (env : Env) :
    (unsetenv "LD_PRELOAD" env).1 = 0 ∧
      ("LD_PRELOAD" == "" || "LD_PRELOAD".data.contains '=') = false := by
  constructor
  · rw [unsetenv_target_eq]
  · decide

/-- C10 (implicit — determinism): the post-initialization environment is a
pure function of the pre-initialization environment; two runs starting from
equal environments produce equal results, with no other dependence. -/
theorem c10_determinism (env₁ env₂ : Env) (h : env₁ = env₂) :
    unset_preload env₁ = unset_preload env₂ := by
  rw [h]

theorem c10_determinism_witness :
    unset_preload [("LD_PRELOAD", "v")] = unset_preload [("LD_PRELOAD", "v")] :=
  c10_determinism [("LD_PRELOAD", "v")] [("LD_PRELOAD", "v")] rfl
